import Mathlib

/-!
Shallow embedding of the jira-google-roadmap-generator layout engine
(`lib.py`).  Machine reals (Python floats used only for exact
arithmetic on configured sizes) are modelled as rationals; the uuid
supply for fresh element identifiers is passed in explicitly, since no
verified property depends on identifier values.  Exception messages are
elided: errors are modelled by their kind only, matching the error
taxonomy (ConfigurationError / NotFoundError).
-/

/-- Error kinds raised by the pipeline: unrecognized configuration
(`product_category_mode` invalid, missing required config key) and an
empty issue-query result. -/
inductive RoadmapError where
  | configError
  | notFound
deriving DecidableEq, Repr

/-- Normalized roadmap issue, mirroring the `JiraRoadmapIssue` dataclass. -/
structure JiraRoadmapIssue where
  jira_id : String
  product_categories : List String
  jira_quarter : String
  jira_link : String
  summary : String
  description : String
  beta : Bool
deriving DecidableEq, Repr

/-- Raw issue record as exposed by the tracker: id, component names,
labels, possibly-absent description, summary, current status name, the
configured beta custom attribute value (`none` when absent/unset) and
the permalink. -/
structure RawIssue where
  id : String
  components : List String
  labels : List String
  rawDescription : Option String
  summary : String
  statusName : String
  betaAttr : Option String
  permalink : String
deriving DecidableEq, Repr

/-- Normalization of one raw record, mirroring the body of the
`for issue_id in roadmap_issue_ids` loop of `get_roadmap_issues`:
category extraction by mode (unknown mode raises), category filtering
by the configured category label with the leading label text stripped,
description defaulting, and beta resolution (`Ok none` = issue dropped
because it is beta and beta issues are excluded). -/
def processIssue (mode pre : String) (include_beta : Bool) (raw : RawIssue) :
    Except RoadmapError (Option JiraRoadmapIssue) :=
  match (if mode = "components" then some raw.components
         else if mode = "labels" then some raw.labels
         else none) with
  | none => .error .configError
  | some issue_categories =>
    let filtered_categories :=
      (issue_categories.filter (fun c => pre.data.isPrefixOf c.data)).map
        (fun c => String.mk (c.data.drop pre.length))
    let description := raw.rawDescription.getD ""
    match (if include_beta = true ∧ raw.betaAttr = some "Beta" then some true
           else if include_beta = false ∧ raw.betaAttr = some "Beta" then none
           else some false) with
    | none => .ok none
    | some beta_flag =>
      .ok (some {
        jira_id := raw.id,
        product_categories := filtered_categories,
        jira_quarter := raw.statusName,
        jira_link := raw.permalink,
        summary := raw.summary,
        description := description,
        beta := beta_flag })

/-- Normalization of a list of raw records in order, accumulating the
emitted issues and propagating the first error. -/
def processIssues (mode pre : String) (include_beta : Bool) :
    List RawIssue → Except RoadmapError (List JiraRoadmapIssue)
  | [] => .ok []
  | raw :: rest => do
    let opt ← processIssue mode pre include_beta raw
    let tail ← processIssues mode pre include_beta rest
    match opt with
    | some i => .ok (i :: tail)
    | none => .ok tail

/-- The normalizer stage `get_roadmap_issues`: an empty query result
raises NotFoundError, otherwise each record is normalized in order. -/
def get_roadmap_issues (mode pre : String) (include_beta : Bool)
    (records : List RawIssue) : Except RoadmapError (List JiraRoadmapIssue) :=
  if records.isEmpty then .error .notFound
  else processIssues mode pre include_beta records

/-- Declarative Google Slides operations, restricted to the payload
fields the source actually writes. -/
inductive SlidesRequest where
  | createSlide (objectId layout titleId : String)
  | insertText (objectId : String) (insertionIndex : ℕ) (text : String)
  | createShape (objectId shapeType pageId : String)
      (height width translateX translateY : ℚ)
  | createLine (objectId lineCategory pageId : String)
      (height width translateX translateY : ℚ)
  | updateShapeProperties (objectId : String)
      (contentAlignment : Option String) (outlineColor : Option String)
      (outlineAlpha : Option ℚ) (fillColor : Option String)
      (fillAlpha : Option ℚ) (linkUrl : Option String)
  | updateLineProperties (objectId : String)
      (endArrow lineColor : String) (weight : ℚ)
  | updateTextStyle (objectId : String) (bold : Option Bool)
      (fontFamily : Option String) (fontSize : Option ℚ)
      (foregroundColor : Option String) (textRange : Option (ℕ × ℕ))
  | updateParagraphStyle (objectId : String) (alignment : String)
deriving DecidableEq, Repr

/-- Configuration of the left header box. -/
structure LeftHeaderConfig where
  shape_type : String
  locx : ℚ
  locy : ℚ
  width : ℚ
  height : ℚ
  color : String
  font_size : ℚ
deriving DecidableEq, Repr

/-- Configuration of the left descriptive box. -/
structure LeftMainConfig where
  shape_type : String
  locy : ℚ
  width : ℚ
  height : ℚ
  color : String
  text : String
  font_size : ℚ
deriving DecidableEq, Repr

/-- Configuration of the timeline arrow. -/
structure TimelineArrowConfig where
  width : ℚ
  color : String
  weight : ℚ
deriving DecidableEq, Repr

/-- Configuration of the per-column quarter markers. -/
structure QuarterMarkerConfig where
  shape_type : String
  height : ℚ
  width : ℚ
  color : String
  font : String
  font_size : ℚ
  font_color : String
deriving DecidableEq, Repr

/-- Configuration of the roadmap item boxes. -/
structure RoadmapBoxConfig where
  shape_type : String
  height : ℚ
  x_padding : ℚ
  y_padding : ℚ
  description_length : ℕ
  font_size : ℚ
  outline_color : String
  fill_color : String
  beta_label_outline_color : String
  beta_label_color : String
  beta_label_font_size : ℚ
  beta_label_font_color : String
deriving DecidableEq, Repr

/-- One timeline column: its label and the set of tracker status names
it accepts. -/
structure ColumnConfig where
  label : String
  jira_statuses : List String
deriving DecidableEq, Repr

/-- Full slide configuration.  The `quarters` key is modelled as
optional so that its absence (a missing dictionary key in the source)
is expressible; its value is typed opaquely as a string since the
source never reads it. -/
structure RoadmapSlideConfig where
  left_header : LeftHeaderConfig
  left_main : LeftMainConfig
  timeline_arrow : TimelineArrowConfig
  quarter_marker : QuarterMarkerConfig
  quarters : Option String
  roadmap_box : RoadmapBoxConfig
  columns : List ColumnConfig
deriving DecidableEq, Repr

/-- One non-header slide created in pass 1. -/
structure RoadmapSlide where
  title : String
  google_slide_id : String
  product_category : String
deriving DecidableEq, Repr

/-- Request body of `gen_roadmap_item_req`: rounded-rectangle roadmap
box (create, style/link, insert tagline+newline+description, base text
style, paragraph style, bold over the tagline range) plus, when `beta`,
the beta badge group. -/
def gen_roadmap_item_req (page_id : String) (width locx locy : ℚ)
    (roadmap_box_config : RoadmapBoxConfig) (tagline description link : String)
    (beta : Bool) (element_id beta_flag_element_id : String) :
    List SlidesRequest × String :=
  let request_body : List SlidesRequest := [
    .createShape element_id roadmap_box_config.shape_type page_id
      roadmap_box_config.height width locx locy,
    .updateShapeProperties element_id (some "TOP")
      (some roadmap_box_config.outline_color) none
      (some roadmap_box_config.fill_color) none (some link),
    .insertText element_id 0 (tagline ++ "\n" ++ description),
    .updateTextStyle element_id none (some "Manrope")
      (some roadmap_box_config.font_size) none none,
    .updateParagraphStyle element_id "START",
    .updateTextStyle element_id (some true) none none none
      (some (0, tagline.length))]
  let request_body :=
    if beta then
      request_body ++ [
        .createShape beta_flag_element_id "FLOW_CHART_TERMINATOR" page_id
          (roadmap_box_config.height / 4.5) (width / 7)
          (locx + width * 6 / 7 - 2) (locy + 2),
        .updateShapeProperties beta_flag_element_id (some "MIDDLE")
          (some roadmap_box_config.beta_label_outline_color) none
          (some roadmap_box_config.beta_label_color) none none,
        .insertText beta_flag_element_id 0 "beta",
        .updateTextStyle beta_flag_element_id none (some "Manrope")
          (some roadmap_box_config.beta_label_font_size)
          (some roadmap_box_config.beta_label_font_color) none,
        .updateParagraphStyle beta_flag_element_id "CENTER"]
    else request_body
  (request_body, element_id)

/-- Request body of `gen_header_slide_req`: a section-header slide with
its title text. -/
def gen_header_slide_req (title : String) (titleId slideId : String) :
    List SlidesRequest × String :=
  ([.createSlide slideId "SECTION_HEADER" titleId,
    .insertText titleId 0 title], slideId)

/-- Request body of `gen_roadmap_slide_req`: the roadmap skeleton
slide.  The source reads `roadmap_slide_config['quarters']` (a missing
key raises) without ever using the value; `ids` supplies the fresh
element identifiers in the order the source draws them from `uuid4`. -/
def gen_roadmap_slide_req (title : String) (roadmap_slide_config : RoadmapSlideConfig)
    (ids : ℕ → String) : Except RoadmapError (List SlidesRequest × String) :=
  match roadmap_slide_config.quarters with
  | none => .error .configError
  | some _ =>
    let lh := roadmap_slide_config.left_header
    let lm := roadmap_slide_config.left_main
    let ta := roadmap_slide_config.timeline_arrow
    let qm := roadmap_slide_config.quarter_marker
    let rb := roadmap_slide_config.roadmap_box
    let columns_config := roadmap_slide_config.columns
    let title_id := ids 0
    let slide_id := ids 1
    let left_header_element_id := ids 2
    let left_main_element_id := ids 3
    let timeline_arrow_element_id := ids 4
    let left_main_locx := lh.locx
    let timeline_arrow_start_locx := lh.locx + lh.width
    let timeline_arrow_start_locy := lh.locy + lh.height / 2
    let slide_req : List SlidesRequest :=
      [.createSlide slide_id "TITLE_AND_TWO_COLUMNS" title_id]
    let title_req : List SlidesRequest := [.insertText title_id 0 title]
    let left_main_req : List SlidesRequest := [
      .createShape left_main_element_id lm.shape_type slide_id
        lm.height lm.width left_main_locx lm.locy,
      .updateShapeProperties left_main_element_id (some "TOP") none (some 0)
        (some lm.color) none none,
      .insertText left_main_element_id 0 ("\n\n\n" ++ lm.text),
      .updateTextStyle left_main_element_id none (some "Manrope")
        (some lm.font_size) none none,
      .updateParagraphStyle left_main_element_id "START"]
    let left_header_req : List SlidesRequest := [
      .createShape left_header_element_id lh.shape_type slide_id
        lh.height lh.width lh.locx lh.locy,
      .updateShapeProperties left_header_element_id (some "TOP") none (some 0)
        (some lh.color) none none,
      .insertText left_header_element_id 0 title,
      .updateTextStyle left_header_element_id (some true) (some "Manrope")
        (some lh.font_size) (some "LIGHT1") none,
      .updateParagraphStyle left_header_element_id "CENTER"]
    let timeline_arrow_req : List SlidesRequest := [
      .createLine timeline_arrow_element_id "STRAIGHT" slide_id
        1 ta.width timeline_arrow_start_locx timeline_arrow_start_locy,
      .updateLineProperties timeline_arrow_element_id "FILL_ARROW" ta.color ta.weight]
    let quarter_width := (ta.width - rb.x_padding * 2) / columns_config.length
    let quarter_locx := timeline_arrow_start_locx + rb.x_padding
    let text_box_width : ℚ := 200
    let quarter_marker_reqs : List SlidesRequest :=
      columns_config.enum.flatMap (fun e =>
        let col_num := e.1
        let column := e.2
        let quarter_marker_element_id := ids (5 + 2 * col_num)
        let quarter_textbox_element_id := ids (6 + 2 * col_num)
        [.createShape quarter_marker_element_id qm.shape_type slide_id
           qm.height qm.width
           (quarter_locx + quarter_width / 2 - qm.width / 2 + quarter_width * col_num)
           (timeline_arrow_start_locy - qm.height / 2),
         .updateShapeProperties quarter_marker_element_id none none (some 0)
           (some qm.color) none none,
         .createShape quarter_textbox_element_id "RECTANGLE" slide_id
           qm.height text_box_width
           (quarter_locx + quarter_width / 2 - text_box_width / 2 + quarter_width * col_num)
           (timeline_arrow_start_locy - qm.height * 1.75),
         .updateShapeProperties quarter_textbox_element_id none none (some 0)
           none (some 0) none,
         .insertText quarter_textbox_element_id 0 column.label,
         .updateTextStyle quarter_textbox_element_id (some true) (some qm.font)
           (some qm.font_size) (some qm.font_color) none])
    .ok (slide_req ++ title_req ++ left_main_req ++ left_header_req ++
      timeline_arrow_req ++ quarter_marker_reqs, slide_id)

/-- Shared roadmap box width:
`(arrow_width − x_padding × (numColumns + 1)) / numColumns`. -/
def roadmap_box_width (cfg : RoadmapSlideConfig) : ℚ :=
  (cfg.timeline_arrow.width - cfg.roadmap_box.x_padding * (cfg.columns.length + 1)) /
    cfg.columns.length

/-- Resolved placement of one issue on one slide. -/
structure Placement where
  issue : JiraRoadmapIssue
  colIdx : ℕ
  x : ℚ
  y : ℚ
deriving DecidableEq, Repr

/-- Inner column loop of `populate_roadmap_with_issues` for one issue:
every column is visited in configured order (the source has no break);
on a status match a placement is recorded at
`x = baseX + (boxWidth + xPadding) × colNum`,
`y = count(colNum) × (boxHeight + yPadding) + baseY`, and that
column's running count is incremented. -/
def placeIssueAux (boxCfg : RoadmapBoxConfig) (w bx by0 : ℚ)
    (issue : JiraRoadmapIssue) :
    ℕ → List ColumnConfig → (ℕ → ℕ) → List Placement × (ℕ → ℕ)
  | _, [], cnt => ([], cnt)
  | col_num, col :: cols, cnt =>
    if issue.jira_quarter ∈ col.jira_statuses then
      (⟨issue, col_num, bx + (w + boxCfg.x_padding) * col_num,
          (cnt col_num) * (boxCfg.height + boxCfg.y_padding) + by0⟩ ::
        (placeIssueAux boxCfg w bx by0 issue (col_num + 1) cols
          (fun j => if j = col_num then cnt col_num + 1 else cnt j)).1,
       (placeIssueAux boxCfg w bx by0 issue (col_num + 1) cols
          (fun j => if j = col_num then cnt col_num + 1 else cnt j)).2)
    else
      placeIssueAux boxCfg w bx by0 issue (col_num + 1) cols cnt

/-- Issue loop of `populate_roadmap_with_issues` for one slide,
threading the per-column running counts; only issues whose category
set contains the slide's category are considered. -/
def allocateSlideAux (boxCfg : RoadmapBoxConfig) (w bx by0 : ℚ)
    (columns : List ColumnConfig) (category : String) :
    List JiraRoadmapIssue → (ℕ → ℕ) → List Placement
  | [], _ => []
  | issue :: rest, cnt =>
    if category ∈ issue.product_categories then
      (placeIssueAux boxCfg w bx by0 issue 0 columns cnt).1 ++
        allocateSlideAux boxCfg w bx by0 columns category rest
          (placeIssueAux boxCfg w bx by0 issue 0 columns cnt).2
    else
      allocateSlideAux boxCfg w bx by0 columns category rest cnt

/-- Column allocation for one slide: the running counts are freshly
initialized to 0 for every column (the source resets
`col['count'] = 0` at the top of each slide's loop), and the geometry
bases are those computed once in `populate_roadmap_with_issues`. -/
def allocateSlide (cfg : RoadmapSlideConfig) (category : String)
    (issues : List JiraRoadmapIssue) : List Placement :=
  allocateSlideAux cfg.roadmap_box (roadmap_box_width cfg)
    (cfg.left_header.locx + cfg.left_header.width + cfg.roadmap_box.x_padding)
    (cfg.left_header.locy + cfg.left_header.height)
    cfg.columns category issues (fun _ => 0)

/-- Population pass: for each slide, allocate this slide's placements
and generate one roadmap item request group per placement, with the
description truncated to `description_length` characters at the call
site.  `eid`/`bid` stand in for the uuid supply of each item box and
its beta badge. -/
def populate_roadmap_with_issues (cfg : RoadmapSlideConfig)
    (roadmap_slides : List RoadmapSlide)
    (jira_roadmap_issues : List JiraRoadmapIssue) (eid bid : String) :
    List (List SlidesRequest) :=
  roadmap_slides.flatMap (fun slide =>
    (allocateSlide cfg slide.product_category jira_roadmap_issues).map (fun p =>
      (gen_roadmap_item_req slide.google_slide_id (roadmap_box_width cfg) p.x p.y
        cfg.roadmap_box p.issue.summary
        (p.issue.description.take cfg.roadmap_box.description_length)
        p.issue.jira_link p.issue.beta eid bid).1))

/-- Does column `c` (absolute index) accept the issue's time bucket,
scanning `cols` whose first element has absolute index `i`? -/
def hitsCol (issue : JiraRoadmapIssue) : ℕ → List ColumnConfig → ℕ → Bool
  | _, [], _ => false
  | i, col :: cols, c =>
    if c = i then decide (issue.jira_quarter ∈ col.jira_statuses)
    else hitsCol issue (i + 1) cols c

/-- Beta badge shapes (by their distinctive shape type) with their
translate coordinates. -/
def betaBadgeXYs (reqs : List SlidesRequest) : List (ℚ × ℚ) :=
  reqs.filterMap (fun r => match r with
    | .createShape _ shapeType _ _ _ tx ty =>
      if shapeType = "FLOW_CHART_TERMINATOR" then some (tx, ty) else none
    | _ => none)

/-- Insert-text operations addressed to a given element, with their
insertion indices. -/
def insertTextsOn (oid : String) (reqs : List SlidesRequest) : List (ℕ × String) :=
  reqs.filterMap (fun r => match r with
    | .insertText o idx t => if o = oid then some (idx, t) else none
    | _ => none)

/-- Text-style operations that set bold to true, with their target
character ranges (`none` = whole element). -/
def boldTrueStyleRanges (reqs : List SlidesRequest) : List (Option (ℕ × ℕ)) :=
  reqs.filterMap (fun r => match r with
    | .updateTextStyle _ b _ _ _ range => if b = some true then some range else none
    | _ => none)

/-- Widths of all created shapes, in request order. -/
def createShapeWidths (reqs : List SlidesRequest) : List ℚ :=
  reqs.filterMap (fun r => match r with
    | .createShape _ _ _ _ w _ _ => some w
    | _ => none)

/-- Is the result a configuration error? -/
def isConfigError {α : Type} : Except RoadmapError α → Bool
  | .error .configError => true
  | _ => false

/-- Column indices, in configured order, whose status set accepts the
issue's time bucket. -/
def matchingColumnIdxs (cols : List ColumnConfig) (issue : JiraRoadmapIssue) : List ℕ :=
  (cols.enum.filter (fun e => decide (issue.jira_quarter ∈ e.2.jira_statuses))).map
    (fun e => e.1)

/-- Sample slide configuration for concrete witnesses: 4 disjoint
columns, arrow width 800, x padding 20 (so the shared box width is
175), box height 50, y padding 10. -/
def sampleConfig : RoadmapSlideConfig :=
  { left_header := ⟨"TEXT_BOX", 20, 40, 100, 60, "ACCENT1", 18⟩,
    left_main := ⟨"TEXT_BOX", 120, 100, 300, "LIGHT2", "Roadmap", 12⟩,
    timeline_arrow := ⟨800, "DARK1", 3⟩,
    quarter_marker := ⟨"ELLIPSE", 20, 20, "ACCENT2", "Manrope", 10, "DARK2"⟩,
    quarters := some "quarters",
    roadmap_box := ⟨"ROUND_RECTANGLE", 50, 20, 10, 100, 9, "ACCENT3",
      "LIGHT1", "ACCENT4", "ACCENT5", 7, "DARK1"⟩,
    columns := [⟨"Q1", ["Q1"]⟩, ⟨"Q2", ["Q2"]⟩, ⟨"Q3", ["Q3"]⟩, ⟨"Q4", ["Q4"]⟩] }

/-- The sample configuration with the `quarters` key absent. -/
def sampleConfigNoQuarters : RoadmapSlideConfig :=
  { sampleConfig with quarters := none }

/-- A normalized sample issue in category "Search", bucket "Q1". -/
def sampleIssue : JiraRoadmapIssue :=
  ⟨"10001", ["Search"], "Q1", "https://jira.example/RI-1", "Faster search",
    "Improves latency", false⟩

/-- Expected placement of `sampleIssue` on the "Search" slide of
`sampleConfig`: column 0, x = 20+100+20 = 140, y = 40+60 = 100. -/
def samplePlacement : Placement :=
  ⟨sampleIssue, 0, 140, 100⟩

/-- Configuration whose two columns BOTH accept the status "Now". -/
def overlapConfig : RoadmapSlideConfig :=
  { sampleConfig with columns := [⟨"Q1", ["Now"]⟩, ⟨"Q2", ["Now", "Later"]⟩] }

/-- An issue whose time bucket "Now" is accepted by both columns of
`overlapConfig`. -/
def overlapIssue : JiraRoadmapIssue :=
  ⟨"10002", ["Search"], "Now", "https://jira.example/RI-2", "S", "D", false⟩

/-- Sample raw record: components `["Product: Search", "Internal"]`,
no description, no beta attribute. -/
def sampleRaw : RawIssue :=
  ⟨"10001", ["Product: Search", "Internal"], [], none, "Faster search", "Q1",
    none, "https://jira.example/RI-1"⟩

/-- Sample raw record whose beta attribute value is exactly "Beta". -/
def sampleBetaRaw : RawIssue :=
  { sampleRaw with betaAttr := some "Beta" }

/-- Expected normalization of `sampleRaw` in "components" mode with
label text "Product: " stripped. -/
def sampleNormalized : JiraRoadmapIssue :=
  ⟨"10001", ["Search"], "Q1", "https://jira.example/RI-1", "Faster search",
    "", false⟩

theorem hitsCol_eq_false_of_lt (issue : JiraRoadmapIssue) :
    ∀ (cols : List ColumnConfig) (i c : ℕ), c < i → hitsCol issue i cols c = false := by
  intro cols
  induction cols with
  | nil => intro i c _; rfl
  | cons col cols ih =>
    intro i c hc
    unfold hitsCol
    rw [if_neg (by omega)]
    exact ih (i + 1) c (by omega)

theorem placeIssueAux_mem (boxCfg : RoadmapBoxConfig) (w bx by0 : ℚ)
    (issue : JiraRoadmapIssue) :
    ∀ (cols : List ColumnConfig) (i : ℕ) (cnt : ℕ → ℕ) (p : Placement),
      p ∈ (placeIssueAux boxCfg w bx by0 issue i cols cnt).1 →
      p.issue = issue ∧ i ≤ p.colIdx ∧ p.x = bx + (w + boxCfg.x_padding) * p.colIdx := by
  intro cols
  induction cols with
  | nil => intro i cnt p hp; simp [placeIssueAux] at hp
  | cons col cols ih =>
    intro i cnt p hp
    unfold placeIssueAux at hp
    by_cases hq : issue.jira_quarter ∈ col.jira_statuses
    · rw [if_pos hq] at hp
      simp only [List.mem_cons] at hp
      rcases hp with rfl | hp
      · exact ⟨rfl, le_refl _, rfl⟩
      · obtain ⟨h1, h2, h3⟩ := ih (i + 1) _ p hp
        exact ⟨h1, by omega, h3⟩
    · rw [if_neg hq] at hp
      obtain ⟨h1, h2, h3⟩ := ih (i + 1) cnt p hp
      exact ⟨h1, by omega, h3⟩

theorem placeIssueAux_cnt (boxCfg : RoadmapBoxConfig) (w bx by0 : ℚ)
    (issue : JiraRoadmapIssue) :
    ∀ (cols : List ColumnConfig) (i : ℕ) (cnt : ℕ → ℕ) (c : ℕ),
      (placeIssueAux boxCfg w bx by0 issue i cols cnt).2 c
        = cnt c + (if hitsCol issue i cols c then 1 else 0) := by
  intro cols
  induction cols with
  | nil => intro i cnt c; simp [placeIssueAux, hitsCol]
  | cons col cols ih =>
    intro i cnt c
    unfold placeIssueAux hitsCol
    by_cases hq : issue.jira_quarter ∈ col.jira_statuses
    · rw [if_pos hq]
      by_cases hc : c = i
      · subst hc
        rw [ih, hitsCol_eq_false_of_lt issue cols (c + 1) c (by omega)]
        simp [hq]
      · rw [ih]
        simp [hc]
    · rw [if_neg hq]
      by_cases hc : c = i
      · subst hc
        rw [ih, hitsCol_eq_false_of_lt issue cols (c + 1) c (by omega)]
        simp [hq]
      · rw [ih]
        simp [hc]

theorem placeIssueAux_filter_y (boxCfg : RoadmapBoxConfig) (w bx by0 : ℚ)
    (issue : JiraRoadmapIssue) :
    ∀ (cols : List ColumnConfig) (i : ℕ) (cnt : ℕ → ℕ) (c : ℕ),
      ((placeIssueAux boxCfg w bx by0 issue i cols cnt).1.filter
          (fun p => p.colIdx == c)).map Placement.y
        = if hitsCol issue i cols c then
            [(cnt c : ℚ) * (boxCfg.height + boxCfg.y_padding) + by0] else [] := by
  intro cols
  induction cols with
  | nil => intro i cnt c; simp [placeIssueAux, hitsCol]
  | cons col cols ih =>
    intro i cnt c
    unfold placeIssueAux hitsCol
    by_cases hq : issue.jira_quarter ∈ col.jira_statuses
    · rw [if_pos hq]
      by_cases hc : c = i
      · subst hc
        have htail : ((placeIssueAux boxCfg w bx by0 issue (c + 1) cols
            (fun j => if j = c then cnt c + 1 else cnt j)).1.filter
              (fun p => p.colIdx == c)) = [] := by
          rw [List.filter_eq_nil_iff]
          intro p hp
          have := (placeIssueAux_mem boxCfg w bx by0 issue cols (c + 1) _ p hp).2.1
          simp only [beq_iff_eq]
          omega
        simp [List.filter_cons, htail, hq]
      · have hne : (i == c) = false := by
          simp only [beq_eq_false_iff_ne]
          omega
        simp [List.filter_cons, hne, ih, hc]
    · rw [if_neg hq]
      by_cases hc : c = i
      · subst hc
        rw [ih, hitsCol_eq_false_of_lt issue cols (c + 1) c (by omega)]
        simp [hq]
      · rw [ih]
        simp [hc]

theorem allocateSlideAux_mem (boxCfg : RoadmapBoxConfig) (w bx by0 : ℚ)
    (columns : List ColumnConfig) (category : String) :
    ∀ (issues : List JiraRoadmapIssue) (cnt : ℕ → ℕ) (p : Placement),
      p ∈ allocateSlideAux boxCfg w bx by0 columns category issues cnt →
      p.issue ∈ issues ∧ p.x = bx + (w + boxCfg.x_padding) * p.colIdx := by
  intro issues
  induction issues with
  | nil => intro cnt p hp; simp [allocateSlideAux] at hp
  | cons issue rest ih =>
    intro cnt p hp
    unfold allocateSlideAux at hp
    by_cases hcat : category ∈ issue.product_categories
    · rw [if_pos hcat, List.mem_append] at hp
      rcases hp with hp | hp
      · obtain ⟨h1, _, h3⟩ := placeIssueAux_mem boxCfg w bx by0 issue columns 0 cnt p hp
        exact ⟨by rw [h1]; exact List.mem_cons_self _ _, h3⟩
      · obtain ⟨h1, h3⟩ := ih _ p hp
        exact ⟨List.mem_cons_of_mem _ h1, h3⟩
    · rw [if_neg hcat] at hp
      obtain ⟨h1, h3⟩ := ih cnt p hp
      exact ⟨List.mem_cons_of_mem _ h1, h3⟩

theorem allocateSlideAux_filter_y (boxCfg : RoadmapBoxConfig) (w bx by0 : ℚ)
    (columns : List ColumnConfig) (category : String) :
    ∀ (issues : List JiraRoadmapIssue) (cnt : ℕ → ℕ) (c : ℕ),
      ((allocateSlideAux boxCfg w bx by0 columns category issues cnt).filter
          (fun p => p.colIdx == c)).map Placement.y
        = (List.range (((allocateSlideAux boxCfg w bx by0 columns category issues cnt).filter
            (fun p => p.colIdx == c)).length)).map
            (fun j => ((cnt c + j : ℕ) : ℚ) * (boxCfg.height + boxCfg.y_padding) + by0) := by
  intro issues
  induction issues with
  | nil => intro cnt c; rfl
  | cons issue rest ih =>
    intro cnt c
    unfold allocateSlideAux
    by_cases hcat : category ∈ issue.product_categories
    · rw [if_pos hcat]
      rw [List.filter_append, List.map_append, List.length_append]
      rw [placeIssueAux_filter_y boxCfg w bx by0 issue columns 0 cnt c]
      have hlen : ((placeIssueAux boxCfg w bx by0 issue 0 columns cnt).1.filter
          (fun p => p.colIdx == c)).length
          = (((placeIssueAux boxCfg w bx by0 issue 0 columns cnt).1.filter
              (fun p => p.colIdx == c)).map Placement.y).length := by
        rw [List.length_map]
      rw [hlen, placeIssueAux_filter_y boxCfg w bx by0 issue columns 0 cnt c]
      rw [ih _ c, placeIssueAux_cnt boxCfg w bx by0 issue columns 0 cnt c]
      by_cases hhit : hitsCol issue 0 columns c
      · simp only [hhit, if_true, List.length_singleton, List.singleton_append]
        rw [Nat.add_comm 1, List.range_succ_eq_map, List.map_cons, List.map_map]
        refine List.cons_eq_cons.mpr ⟨by norm_num, ?_⟩
        apply List.map_congr_left
        intro j _
        simp only [Function.comp_apply]
        push_cast
        ring
      · simp only [hhit, if_false, List.length_nil, List.nil_append, Nat.zero_add,
          Nat.add_zero, Bool.false_eq_true]
    · rw [if_neg hcat]
      exact ih cnt c

theorem placeIssueAux_proj (boxCfg : RoadmapBoxConfig) (w bx by0 : ℚ)
    (issue : JiraRoadmapIssue) :
    ∀ (cols : List ColumnConfig) (i : ℕ) (cnt : ℕ → ℕ),
      (placeIssueAux boxCfg w bx by0 issue i cols cnt).1.map (fun p => (p.issue, p.colIdx))
        = ((cols.enumFrom i).filter
            (fun e => decide (issue.jira_quarter ∈ e.2.jira_statuses))).map
            (fun e => (issue, e.1)) := by
  intro cols
  induction cols with
  | nil => intro i cnt; rfl
  | cons col cols ih =>
    intro i cnt
    unfold placeIssueAux
    by_cases hq : issue.jira_quarter ∈ col.jira_statuses
    · rw [if_pos hq]
      simp [List.enumFrom_cons, List.filter_cons, hq, ih]
    · rw [if_neg hq]
      simp [List.enumFrom_cons, List.filter_cons, hq, ih]

theorem allocateSlideAux_proj (boxCfg : RoadmapBoxConfig) (w bx by0 : ℚ)
    (columns : List ColumnConfig) (category : String) :
    ∀ (issues : List JiraRoadmapIssue) (cnt : ℕ → ℕ),
      (allocateSlideAux boxCfg w bx by0 columns category issues cnt).map
          (fun p => (p.issue, p.colIdx))
        = issues.flatMap (fun iss =>
            if category ∈ iss.product_categories then
              (matchingColumnIdxs columns iss).map (fun c => (iss, c))
            else []) := by
  intro issues
  induction issues with
  | nil => intro cnt; rfl
  | cons issue rest ih =>
    intro cnt
    unfold allocateSlideAux
    rw [List.flatMap_cons]
    by_cases hcat : category ∈ issue.product_categories
    · rw [if_pos hcat, if_pos hcat, List.map_append,
        placeIssueAux_proj boxCfg w bx by0 issue columns 0 cnt, ih]
      congr 1
      simp only [matchingColumnIdxs, List.enum_eq_enumFrom, List.map_map]
      rfl
    · rw [if_neg hcat, if_neg hcat, List.nil_append]
      exact ih cnt

/-- C1 (amended): on each slide, an issue whose category set contains
the slide's category is placed once into EVERY column (in configured
order) whose accepted status set contains the issue's time bucket —
not only the first such column; with pairwise-disjoint column sets
this is exactly the first matching column.  An issue matching no
column, or not matching the slide's category, contributes no placement
and no error.  Projected to (issue, columnIndex), the slide's
placement list is exactly this flat map, in issue-list order. -/
theorem C1_place_each_matching_column :
    ∀ (cfg : RoadmapSlideConfig) (category : String) (issues : List JiraRoadmapIssue),
      (allocateSlide cfg category issues).map (fun p => (p.issue, p.colIdx))
        = issues.flatMap (fun iss =>
            if category ∈ iss.product_categories then
              (matchingColumnIdxs cfg.columns iss).map (fun c => (iss, c))
            else []) := by
  intro cfg category issues
  exact allocateSlideAux_proj _ _ _ _ _ _ issues (fun _ => 0)

/-- C1 counterexample: with two columns whose status sets BOTH contain
the bucket "Now", the matching issue is placed into both column 0 and
column 1 — the claim that the issue goes only into the first matching
column (never a later one) is false on the code, which has no break in
its column loop. -/
theorem C1_counterexample :
    (allocateSlide overlapConfig "Search" [overlapIssue]).map Placement.colIdx = [0, 1]
    ∧ (allocateSlide overlapConfig "Search" [overlapIssue]).map Placement.colIdx ≠ [0] := by
  constructor <;> decide

/-- C2: for every slide and every column, the per-column running count
starts at 0 (counts are freshly reset per slide, never carried over),
and the k placements landing in that column, taken in issue-list
order, have y-offsets base-y + j × (boxHeight + yPadding) for
j = 0, 1, …, k−1 — starting at the column's base y and strictly
increasing by exactly boxHeight + yPadding per step.  The second
conjunct shows slides are populated independently: the request groups
of a slide list are the concatenation of each slide's own groups, so
no column count leaks from one slide into the next. -/
theorem C2_vertical_stacking :
    (∀ (cfg : RoadmapSlideConfig) (category : String)
        (issues : List JiraRoadmapIssue) (c : ℕ),
      ((allocateSlide cfg category issues).filter (fun p => p.colIdx == c)).map Placement.y
        = (List.range (((allocateSlide cfg category issues).filter
              (fun p => p.colIdx == c)).length)).map
            (fun (j : ℕ) => (j : ℚ) * (cfg.roadmap_box.height + cfg.roadmap_box.y_padding)
              + (cfg.left_header.locy + cfg.left_header.height)))
    ∧ (∀ (cfg : RoadmapSlideConfig) (slides₁ slides₂ : List RoadmapSlide)
        (issues : List JiraRoadmapIssue) (eid bid : String),
      populate_roadmap_with_issues cfg (slides₁ ++ slides₂) issues eid bid
        = populate_roadmap_with_issues cfg slides₁ issues eid bid
          ++ populate_roadmap_with_issues cfg slides₂ issues eid bid) := by
  constructor
  · intro cfg category issues c
    have h := allocateSlideAux_filter_y cfg.roadmap_box (roadmap_box_width cfg)
      (cfg.left_header.locx + cfg.left_header.width + cfg.roadmap_box.x_padding)
      (cfg.left_header.locy + cfg.left_header.height)
      cfg.columns category issues (fun _ => 0) c
    rw [allocateSlide] at *
    rw [h]
    apply List.map_congr_left
    intro j _
    push_cast
    ring
  · intro cfg slides₁ slides₂ issues eid bid
    simp [populate_roadmap_with_issues]

/-- C4: every placement's x equals the base roadmap-box origin-x plus
columnIndex × (boxWidth + xPadding), where boxWidth is the single
shared value (timelineWidth − xPadding × (numColumns+1)) / numColumns;
with 4 columns, timeline width 800 and x padding 20, boxWidth = 175;
and every emitted item-box request group creates its main shape with
exactly that shared width. -/
theorem C4_x_and_box_width :
    (∀ (cfg : RoadmapSlideConfig) (category : String)
        (issues : List JiraRoadmapIssue) (p : Placement),
      p ∈ allocateSlide cfg category issues →
      p.x = (cfg.left_header.locx + cfg.left_header.width + cfg.roadmap_box.x_padding)
        + (p.colIdx : ℚ) * (roadmap_box_width cfg + cfg.roadmap_box.x_padding))
    ∧ (∀ cfg : RoadmapSlideConfig, cfg.columns.length = 4 →
        cfg.timeline_arrow.width = 800 → cfg.roadmap_box.x_padding = 20 →
        roadmap_box_width cfg = 175)
    ∧ (∀ (cfg : RoadmapSlideConfig) (slides : List RoadmapSlide)
        (issues : List JiraRoadmapIssue) (eid bid : String)
        (reqs : List SlidesRequest),
      reqs ∈ populate_roadmap_with_issues cfg slides issues eid bid →
      (createShapeWidths reqs).head? = some (roadmap_box_width cfg)) := by
  refine ⟨?_, ?_, ?_⟩
  · intro cfg category issues p hp
    have h := (allocateSlideAux_mem cfg.roadmap_box (roadmap_box_width cfg)
      (cfg.left_header.locx + cfg.left_header.width + cfg.roadmap_box.x_padding)
      (cfg.left_header.locy + cfg.left_header.height)
      cfg.columns category issues (fun _ => 0) p hp).2
    rw [h]
    ring
  · intro cfg h1 h2 h3
    rw [roadmap_box_width, h1, h2, h3]
    norm_num
  · intro cfg slides issues eid bid reqs hreqs
    rw [populate_roadmap_with_issues, List.mem_flatMap] at hreqs
    obtain ⟨slide, _, hreqs⟩ := hreqs
    rw [List.mem_map] at hreqs
    obtain ⟨p, _, rfl⟩ := hreqs
    by_cases hb : p.issue.beta
    · simp [gen_roadmap_item_req, createShapeWidths, hb]
    · simp [gen_roadmap_item_req, createShapeWidths, hb]

/-- C8: the item-box builder emits a beta badge shape (the
FLOW_CHART_TERMINATOR createShape) exactly when the issue's beta flag
is true; its x is the box x plus boxWidth × 6/7 − 2 and its y the box
y plus the fixed inset 2; with boxWidth = 175 the horizontal offset
from the box's left edge is 148. -/
theorem C8_beta_badge :
    ∀ (page : String) (width locx locy : ℚ) (boxCfg : RoadmapBoxConfig)
      (tagline description link eid bid : String),
      boxCfg.shape_type ≠ "FLOW_CHART_TERMINATOR" →
      (∀ beta, betaBadgeXYs (gen_roadmap_item_req page width locx locy boxCfg
            tagline description link beta eid bid).1
          = if beta then [(locx + width * 6 / 7 - 2, locy + 2)] else [])
      ∧ betaBadgeXYs (gen_roadmap_item_req page 175 locx locy boxCfg
            tagline description link true eid bid).1
          = [(locx + 148, locy + 2)] := by
  intro page width locx locy boxCfg tagline description link eid bid h
  constructor
  · intro beta
    cases beta <;> simp [gen_roadmap_item_req, betaBadgeXYs, h]
  · simp [gen_roadmap_item_req, betaBadgeXYs, h]
    ring_nf

/-- C9: the roadmap item box's inserted text is the tagline, a
newline, then the description; the only bold-setting text-style
operation targets exactly the fixed character range from 0 to the
tagline's length (so no description character is bolded); and at
placement time the description handed to the builder is the issue's
description truncated to the configured description_length. -/
theorem C9_tagline_bold_truncation :
    ∀ (eid bid : String), eid ≠ bid →
      (∀ (page : String) (width locx locy : ℚ) (boxCfg : RoadmapBoxConfig)
          (tagline description link : String) (beta : Bool),
        insertTextsOn eid (gen_roadmap_item_req page width locx locy boxCfg
              tagline description link beta eid bid).1
            = [(0, tagline ++ "\n" ++ description)]
          ∧ boldTrueStyleRanges (gen_roadmap_item_req page width locx locy boxCfg
              tagline description link beta eid bid).1
            = [some (0, tagline.length)])
      ∧ (∀ (cfg : RoadmapSlideConfig) (slides : List RoadmapSlide)
          (issues : List JiraRoadmapIssue) (reqs : List SlidesRequest),
          reqs ∈ populate_roadmap_with_issues cfg slides issues eid bid →
          ∃ iss ∈ issues, insertTextsOn eid reqs
            = [(0, iss.summary ++ "\n"
                ++ iss.description.take cfg.roadmap_box.description_length)]) := by
  intro eid bid h
  have hmain : ∀ (page : String) (width locx locy : ℚ) (boxCfg : RoadmapBoxConfig)
      (tagline description link : String) (beta : Bool),
      insertTextsOn eid (gen_roadmap_item_req page width locx locy boxCfg
          tagline description link beta eid bid).1
        = [(0, tagline ++ "\n" ++ description)] := by
    intro page width locx locy boxCfg tagline description link beta
    have h2 : ¬(bid = eid) := fun hh => h hh.symm
    cases beta <;> simp [gen_roadmap_item_req, insertTextsOn, h2]
  refine ⟨fun page width locx locy boxCfg tagline description link beta =>
    ⟨hmain page width locx locy boxCfg tagline description link beta, ?_⟩, ?_⟩
  · cases beta <;> simp [gen_roadmap_item_req, boldTrueStyleRanges]
  · intro cfg slides issues reqs hreqs
    rw [populate_roadmap_with_issues, List.mem_flatMap] at hreqs
    obtain ⟨slide, _, hreqs⟩ := hreqs
    rw [List.mem_map] at hreqs
    obtain ⟨p, hp, rfl⟩ := hreqs
    refine ⟨p.issue, ?_, ?_⟩
    · exact (allocateSlideAux_mem _ _ _ _ _ _ issues (fun _ => 0) p hp).1
    · exact hmain _ _ _ _ _ _ _ _ _

/-- C3: in a recognized category mode, the normalizer drops a raw
issue (emits nothing, without error) exactly when its beta attribute
value is literally "Beta" and include_beta is false; whenever an issue
is emitted, its beta flag is true exactly when the attribute value is
literally "Beta" (so with the attribute absent or different the flag
is false regardless of include_beta); and in every non-drop case the
issue IS emitted. -/
theorem C3_beta_filtering :
    ∀ (mode pre : String) (include_beta : Bool) (raw : RawIssue),
      (mode = "components" ∨ mode = "labels") →
      ((processIssue mode pre include_beta raw = Except.ok none
          ↔ (raw.betaAttr = some "Beta" ∧ include_beta = false))
        ∧ (∀ i, processIssue mode pre include_beta raw = Except.ok (some i) →
            (i.beta = true ↔ raw.betaAttr = some "Beta"))
        ∧ ((raw.betaAttr ≠ some "Beta" ∨ include_beta = true) →
            ∃ i, processIssue mode pre include_beta raw = Except.ok (some i))) := by
  intro mode pre include_beta raw hmode
  by_cases hb : raw.betaAttr = some "Beta" <;>
    rcases hmode with hm | hm <;> subst hm <;>
    cases include_beta <;>
    simp [processIssue, hb]

/-- C5: in "components" mode, a normalized issue's categories are, as
a set, exactly the component names that start with the configured
category label text, each with that leading text stripped. -/
theorem C5_component_categories :
    ∀ (pre : String) (include_beta : Bool) (raw : RawIssue) (i : JiraRoadmapIssue),
      processIssue "components" pre include_beta raw = Except.ok (some i) →
      i.product_categories.toFinset
        = ((raw.components.filter (fun c => pre.data.isPrefixOf c.data)).map
            (fun c => String.mk (c.data.drop pre.length))).toFinset := by
  intro pre include_beta raw i h
  have hcat : i.product_categories
      = (raw.components.filter (fun c => pre.data.isPrefixOf c.data)).map
          (fun c => String.mk (c.data.drop pre.length)) := by
    by_cases hb : raw.betaAttr = some "Beta" <;>
      cases include_beta <;>
      simp [processIssue, hb] at h <;>
      simp [← h]
  rw [hcat]

theorem processIssue_error_configError (mode pre : String) (include_beta : Bool)
    (raw : RawIssue) (e : RoadmapError) :
    processIssue mode pre include_beta raw = Except.error e → e = RoadmapError.configError := by
  unfold processIssue
  split
  · intro h
    cases h
    rfl
  · split
    · intro h; cases h
    · intro h; cases h

theorem processIssues_ne_notFound (mode pre : String) (include_beta : Bool) :
    ∀ records, processIssues mode pre include_beta records
      ≠ Except.error RoadmapError.notFound := by
  intro records
  induction records with
  | nil => simp [processIssues]
  | cons raw rest ih =>
    simp only [processIssues]
    cases h1 : processIssue mode pre include_beta raw with
    | error e =>
      have he := processIssue_error_configError mode pre include_beta raw e h1
      subst he
      simp [Bind.bind, Except.bind]
    | ok opt =>
      cases h2 : processIssues mode pre include_beta rest with
      | error e =>
        have : e ≠ RoadmapError.notFound := fun hh => ih (hh ▸ h2)
        simp [Bind.bind, Except.bind, h2, this]
      | ok tail =>
        cases opt <;> simp [Bind.bind, Except.bind, h2]

/-- C6: an empty query result makes the normalizer stage fail with
NotFoundError (never an empty successful issue list), and with at
least one record no NotFoundError is raised at this stage. -/
theorem C6_empty_query :
    (∀ (mode pre : String) (include_beta : Bool),
      get_roadmap_issues mode pre include_beta [] = Except.error RoadmapError.notFound)
    ∧ (∀ (mode pre : String) (include_beta : Bool) (records : List RawIssue),
        records ≠ [] →
        get_roadmap_issues mode pre include_beta records
          ≠ Except.error RoadmapError.notFound) := by
  constructor
  · intro mode pre include_beta; rfl
  · intro mode pre include_beta records hne
    rw [get_roadmap_issues, if_neg (by simpa using hne)]
    exact processIssues_ne_notFound mode pre include_beta records

theorem processIssue_ok_of_good_mode (mode pre : String) (include_beta : Bool)
    (raw : RawIssue) (hmode : mode = "components" ∨ mode = "labels") :
    ∃ o, processIssue mode pre include_beta raw = Except.ok o := by
  rcases hmode with hm | hm <;> subst hm <;>
    by_cases hb : raw.betaAttr = some "Beta" <;>
    cases include_beta <;>
    simp [processIssue, hb]

theorem processIssues_ok_of_good_mode (mode pre : String) (include_beta : Bool)
    (hmode : mode = "components" ∨ mode = "labels") :
    ∀ records, ∃ l, processIssues mode pre include_beta records = Except.ok l := by
  intro records
  induction records with
  | nil => exact ⟨[], rfl⟩
  | cons raw rest ih =>
    obtain ⟨o, ho⟩ := processIssue_ok_of_good_mode mode pre include_beta raw hmode
    obtain ⟨l, hl⟩ := ih
    cases o with
    | none => exact ⟨l, by simp [processIssues, Bind.bind, Except.bind, ho, hl]⟩
    | some i => exact ⟨i :: l, by simp [processIssues, Bind.bind, Except.bind, ho, hl]⟩

/-- C7 (amended): an unrecognized category mode makes the normalizer
fail with ConfigurationError PROVIDED the query returned at least one
record (with zero records the emptiness check fires first and raises
NotFoundError instead); for the two recognized modes no
ConfigurationError is ever raised. -/
theorem C7_unknown_mode :
    (∀ (mode pre : String) (include_beta : Bool) (records : List RawIssue),
      records ≠ [] → mode ≠ "components" → mode ≠ "labels" →
      get_roadmap_issues mode pre include_beta records
        = Except.error RoadmapError.configError)
    ∧ (∀ (mode pre : String) (include_beta : Bool) (records : List RawIssue),
        (mode = "components" ∨ mode = "labels") →
        isConfigError (get_roadmap_issues mode pre include_beta records) = false) := by
  constructor
  · intro mode pre include_beta records hne h1 h2
    match records with
    | raw :: rest =>
      rw [get_roadmap_issues, if_neg (by simp)]
      have hraw : processIssue mode pre include_beta raw
          = Except.error RoadmapError.configError := by
        unfold processIssue
        rw [if_neg h1, if_neg h2]
      simp [processIssues, Bind.bind, Except.bind, hraw]
  · intro mode pre include_beta records hmode
    rw [get_roadmap_issues]
    by_cases hr : records.isEmpty
    · rw [if_pos hr]; rfl
    · rw [if_neg hr]
      obtain ⟨l, hl⟩ := processIssues_ok_of_good_mode mode pre include_beta hmode records
      rw [hl]
      rfl

/-- C7 counterexample: with an unknown mode "tags" and an empty query
result, the stage raises NotFoundError, not ConfigurationError — the
emptiness check precedes the mode check, so the claim as stated
(unknown mode always fails with ConfigurationError) is false. -/
theorem C7_counterexample :
    get_roadmap_issues "tags" "Product: " true [] = Except.error RoadmapError.notFound
    ∧ get_roadmap_issues "tags" "Product: " true []
      ≠ Except.error RoadmapError.configError := by
  constructor
  · rfl
  · rw [show get_roadmap_issues "tags" "Product: " true []
      = Except.error RoadmapError.notFound from rfl]
    simp

/-- C10: the roadmap-skeleton slide builder fails whenever the slide
configuration lacks the `quarters` key, even though the value read
from that key never influences the emitted request body: for any two
values of the key the builder's output is identical.  A caller
supplying only the documented configuration keys (which do not include
`quarters`) therefore cannot build a skeleton slide. -/
theorem C10_quarters_required :
    (∀ (title : String) (cfg : RoadmapSlideConfig) (ids : ℕ → String),
      cfg.quarters = none →
      gen_roadmap_slide_req title cfg ids = Except.error RoadmapError.configError)
    ∧ (∀ (title : String) (cfg : RoadmapSlideConfig) (q₁ q₂ : String) (ids : ℕ → String),
        gen_roadmap_slide_req title { cfg with quarters := some q₁ } ids
          = gen_roadmap_slide_req title { cfg with quarters := some q₂ } ids) := by
  constructor
  · intro title cfg ids h
    unfold gen_roadmap_slide_req
    rw [h]
  · intro title cfg q₁ q₂ ids
    rfl

/-- Witness for C3: the beta raw record with include_beta = false is
dropped. -/
theorem C3_witness :
    processIssue "components" "Product: " false sampleBetaRaw = Except.ok none :=
  ((C3_beta_filtering "components" "Product: " false sampleBetaRaw (Or.inl rfl)).1).mpr
    ⟨rfl, rfl⟩

/-- Witness for C4 at the sample configuration (4 columns, width 800,
padding 20) and its concrete first placement. -/
theorem C4_witness :
    (samplePlacement.x = (sampleConfig.left_header.locx + sampleConfig.left_header.width
        + sampleConfig.roadmap_box.x_padding)
      + (samplePlacement.colIdx : ℚ)
        * (roadmap_box_width sampleConfig + sampleConfig.roadmap_box.x_padding))
    ∧ roadmap_box_width sampleConfig = 175 :=
  ⟨C4_x_and_box_width.1 sampleConfig "Search" [sampleIssue] samplePlacement
      (by simp [allocateSlide, allocateSlideAux, placeIssueAux, sampleConfig,
        sampleIssue, samplePlacement]; norm_num),
   C4_x_and_box_width.2.1 sampleConfig rfl rfl rfl⟩

/-- Witness for C5 on the spec's own example: components
["Product: Search", "Internal"] normalize to the category set
{"Search"}. -/
theorem C5_witness :
    sampleNormalized.product_categories.toFinset
      = ((sampleRaw.components.filter
            (fun c => "Product: ".data.isPrefixOf c.data)).map
          (fun c => String.mk (c.data.drop "Product: ".length))).toFinset :=
  C5_component_categories "Product: " true sampleRaw sampleNormalized (by rfl)

/-- Witness for C6: empty query result errors, a one-record result
does not raise NotFoundError. -/
theorem C6_witness :
    get_roadmap_issues "components" "Product: " true []
      = Except.error RoadmapError.notFound
    ∧ get_roadmap_issues "components" "Product: " true [sampleRaw]
      ≠ Except.error RoadmapError.notFound :=
  ⟨C6_empty_query.1 "components" "Product: " true,
   C6_empty_query.2 "components" "Product: " true [sampleRaw] (by simp)⟩

/-- Witness for C7 (amended): unknown mode with one record raises
ConfigurationError; a recognized mode never does. -/
theorem C7_witness :
    get_roadmap_issues "tags" "Product: " true [sampleRaw]
      = Except.error RoadmapError.configError
    ∧ isConfigError (get_roadmap_issues "components" "Product: " true [sampleRaw]) = false :=
  ⟨C7_unknown_mode.1 "tags" "Product: " true [sampleRaw] (by simp) (by decide) (by decide),
   C7_unknown_mode.2 "components" "Product: " true [sampleRaw] (Or.inl rfl)⟩

/-- Witness for C8: boxWidth 175 puts the beta badge 148 points right
of the box's left edge (and 2 points below its top). -/
theorem C8_witness :
    betaBadgeXYs (gen_roadmap_item_req "page1" 175 140 100 sampleConfig.roadmap_box
        "Faster search" "Improves latency" "https://jira.example/RI-1" true
        "elem1" "elem2").1
      = [((140 : ℚ) + 148, (100 : ℚ) + 2)] :=
  (C8_beta_badge "page1" 175 140 100 sampleConfig.roadmap_box "Faster search"
    "Improves latency" "https://jira.example/RI-1" "elem1" "elem2" (by decide)).2

/-- Witness for C9: the box text is the tagline, a newline, then the
description. -/
theorem C9_witness :
    insertTextsOn "elem1" (gen_roadmap_item_req "page1" 175 140 100
        sampleConfig.roadmap_box "Tag" "Desc" "url" false "elem1" "elem2").1
      = [(0, "Tag" ++ "\n" ++ "Desc")] :=
  ((C9_tagline_bold_truncation "elem1" "elem2" (by decide)).1 "page1" 175 140 100
    sampleConfig.roadmap_box "Tag" "Desc" "url" false).1

/-- Witness for C10: the sample configuration without the `quarters`
key cannot build a skeleton slide. -/
theorem C10_witness :
    gen_roadmap_slide_req "Search" sampleConfigNoQuarters (fun _ => "id")
      = Except.error RoadmapError.configError :=
  C10_quarters_required.1 "Search" sampleConfigNoQuarters (fun _ => "id") rfl
